import Mathlib

/-!
Verification of the hubspot-crawler detection engine and fetch pipeline.

The Python sources (src/hubspot_crawler/detector.py, src/hubspot_crawler/crawler.py)
are shallowly embedded: pure functions become Lean functions, Python dicts become
records, machine floats used for the blocking rate become exact rationals, and the
regex table (loaded at runtime from a JSON resource) is abstracted by a matcher
oracle that maps a pattern id to the first match found in the body, so theorems
quantify over all possible match outcomes.
-/

namespace HubspotCrawler

/-- Python substring test: leadEq needle hay is true when needle is an initial
segment of hay (character lists). -/
def leadEq : List Char → List Char → Bool
  | [], _ => true
  | _ :: _, [] => false
  | a :: as, b :: bs => a == b && leadEq as bs

/-- Python substring test (the in operator on str): subIn needle hay is true when
needle occurs contiguously in hay. -/
def subIn (needle : List Char) : List Char → Bool
  | [] => leadEq needle []
  | c :: t => leadEq needle (c :: t) || subIn needle t

/-- Python needle in hay on strings. -/
def strIn (needle hay : String) : Bool := subIn needle.data hay.data

/-- Python slicing s[:n] on strings (by code point), kept structural so that
closed instances evaluate inside the kernel. -/
def strTake (s : String) (n : Nat) : String := ⟨s.data.take n⟩

/-- Python str.lower(), modelled for ASCII as character-wise lowering, kept
structural so that closed instances evaluate inside the kernel. -/
def pyLower (s : String) : String := ⟨s.data.map Char.toLower⟩

/-- Evidence item as built by detector._push: a dict with keys category,
patternId, match (truncated to 300 chars), source, hubId, confidence, context.
The match key is named matchStr here because match is a Lean keyword. -/
structure Evidence where
  category : String
  patternId : String
  matchStr : String
  source : String
  hubId : Option Int
  confidence : String
  context : Option String
deriving DecidableEq

/-- detector._push appends an evidence dict, truncating the match to 300 chars. -/
def pushEv (category patternId m source : String) (hubid : Option Int)
    (confidence : String) : Evidence :=
  { category := category, patternId := patternId, matchStr := strTake m 300,
    source := source, hubId := hubid, confidence := confidence, context := none }

/-- Summary features dict from detector.summarise. -/
structure Features where
  forms : Bool
  chat : Bool
  ctasLegacy : Bool
  meetings : Bool
  video : Bool
  emailTrackingIndicators : Bool
deriving DecidableEq

/-- Summary dict from detector.summarise. -/
structure Summary where
  tracking : Bool
  cmsHosting : Bool
  features : Features
  confidence : String
deriving DecidableEq

/-- detector.summarise helper has(cat): any evidence in the category. -/
def hasCat (evidence : List Evidence) (cat : String) : Bool :=
  evidence.any (fun e => e.category == cat)

/-- detector.summarise, line for line from the source. -/
def summarise (evidence : List Evidence) : Summary :=
  let tracking := hasCat evidence "tracking" ||
    evidence.any (fun e => e.category == "cookies" && strIn "hubspotutk" (pyLower e.matchStr))
  let cmsHosting := evidence.any (fun e =>
    e.category == "cms" && (e.confidence == "strong" || e.confidence == "definitive"))
  let features : Features :=
    { forms := hasCat evidence "forms"
      chat := hasCat evidence "chat"
      ctasLegacy := hasCat evidence "ctas"
      meetings := hasCat evidence "meetings"
      video := hasCat evidence "video"
      emailTrackingIndicators := evidence.any (fun e => e.category == "email") }
  let confidence :=
    if evidence.isEmpty then "weak"
    else if tracking && evidence.any (fun e =>
        e.patternId == "tracking_loader_script" && e.confidence == "definitive") then
      "definitive"
    else if tracking then "strong"
    else if evidence.any (fun e => e.confidence == "strong" || e.confidence == "definitive") then
      "moderate"
    else "weak"
  { tracking := tracking, cmsHosting := cmsHosting, features := features,
    confidence := confidence }

/-- C2: summarise assigns the summary confidence as follows: an empty evidence
list yields weak; otherwise, if tracking holds and some evidence item has
patternId tracking_loader_script with confidence definitive, it yields
definitive; otherwise, if tracking holds, strong; otherwise, if some evidence
item has confidence strong or definitive, moderate; otherwise weak.
Consequently, the summary confidence is definitive only if some evidence item
has patternId tracking_loader_script and confidence definitive. -/
theorem summarise_confidence_spec (evidence : List Evidence) :
    ((evidence = [] → (summarise evidence).confidence = "weak") ∧
     (evidence ≠ [] → (summarise evidence).tracking = true →
        (∃ e ∈ evidence, e.patternId = "tracking_loader_script" ∧ e.confidence = "definitive") →
        (summarise evidence).confidence = "definitive") ∧
     (evidence ≠ [] → (summarise evidence).tracking = true →
        (¬ ∃ e ∈ evidence, e.patternId = "tracking_loader_script" ∧ e.confidence = "definitive") →
        (summarise evidence).confidence = "strong") ∧
     (evidence ≠ [] → (summarise evidence).tracking = false →
        (∃ e ∈ evidence, e.confidence = "strong" ∨ e.confidence = "definitive") →
        (summarise evidence).confidence = "moderate") ∧
     (evidence ≠ [] → (summarise evidence).tracking = false →
        (¬ ∃ e ∈ evidence, e.confidence = "strong" ∨ e.confidence = "definitive") →
        (summarise evidence).confidence = "weak")) ∧
    ((summarise evidence).confidence = "definitive" →
      ∃ e ∈ evidence, e.patternId = "tracking_loader_script" ∧ e.confidence = "definitive") := by
  have hLoader : (evidence.any (fun e =>
      e.patternId == "tracking_loader_script" && e.confidence == "definitive") = true) ↔
      (∃ e ∈ evidence, e.patternId = "tracking_loader_script" ∧ e.confidence = "definitive") := by
    simp [List.any_eq_true]
  have hStrong : (evidence.any (fun e =>
      e.confidence == "strong" || e.confidence == "definitive") = true) ↔
      (∃ e ∈ evidence, e.confidence = "strong" ∨ e.confidence = "definitive") := by
    simp [List.any_eq_true]
  have hconf : (summarise evidence).confidence =
      (if evidence.isEmpty then "weak"
       else if (summarise evidence).tracking && evidence.any (fun e =>
           e.patternId == "tracking_loader_script" && e.confidence == "definitive") then "definitive"
       else if (summarise evidence).tracking then "strong"
       else if evidence.any (fun e =>
           e.confidence == "strong" || e.confidence == "definitive") then "moderate"
       else "weak") := rfl
  rw [hconf]
  split_ifs with h0 h1 h2 h3 <;>
    simp_all [List.isEmpty_iff, Bool.and_eq_true]

/-- Witness for summarise_confidence_spec: a single definitive
tracking_loader_script evidence item yields summary confidence definitive. -/
theorem summarise_confidence_spec_witness :
    (summarise [pushEv "tracking" "tracking_loader_script"
        "<script id=hs-script-loader src=//js.hs-scripts.com/12345.js>" "html"
        (some 12345) "definitive"]).confidence = "definitive" :=
  (summarise_confidence_spec _).1.2.1 (by decide) (by decide)
    ⟨_, List.mem_singleton.mpr rfl, rfl, rfl⟩

/-- One header-cookie evidence dict from process_url (crawler.py lines 694-701):
category cookies, patternId cookie_any, source header, match truncated to 300,
confidence definitive when the matched name lowercased equals hubspotutk and
strong otherwise. The source dict carries no context key; the absent key is
modelled as none. -/
def mkHeaderCookieEv (name : String) : Evidence :=
  { category := "cookies", patternId := "cookie_any", matchStr := strTake name 300,
    source := "header", hubId := none,
    confidence := if pyLower name == "hubspotutk" then "definitive" else "strong",
    context := none }

/-- process_url header-cookie loop (crawler.py lines 686-701): one evidence item
per cookie-name match found across the Set-Cookie header values. The regex scan
(re.finditer of the cookie_any pattern over each header value) is abstracted by
its output, the list of matched cookie names in scan order. -/
def headerCookieEvidence (cookieMatches : List String) : List Evidence :=
  cookieMatches.map mkHeaderCookieEv

/-- Dedup key used in process_url (crawler.py line 671):
(category, patternId, source, match truncated to 300 chars). -/
def evKey (e : Evidence) : String × String × String × String :=
  (e.category, e.patternId, e.source, strTake e.matchStr 300)

/-- The seen-set deduplication loop of process_url (crawler.py lines 668-675). -/
def dedupAux (seen : List (String × String × String × String)) :
    List Evidence → List Evidence
  | [] => []
  | e :: rest =>
    if evKey e ∈ seen then dedupAux seen rest
    else e :: dedupAux (evKey e :: seen) rest

/-- Deduplication of an evidence list, starting with an empty seen set. -/
def dedupEvidence (ev : List Evidence) : List Evidence := dedupAux [] ev

/-- Evidence assembly in process_url (crawler.py lines 663-701): the HTML and
network evidence lists are concatenated and deduplicated, and then the
header-cookie evidence is appended (after the dedup step). -/
def assembleEvidence (htmlEv netEv : List Evidence) (cookieMatches : List String) :
    List Evidence :=
  dedupEvidence (htmlEv ++ netEv) ++ headerCookieEvidence cookieMatches

theorem dedupAux_key_nodup (l : List Evidence) :
    ∀ seen, ((dedupAux seen l).map evKey).Nodup ∧
      ∀ k ∈ (dedupAux seen l).map evKey, k ∉ seen := by
  induction l with
  | nil => intro seen; exact ⟨List.nodup_nil, by simp [dedupAux]⟩
  | cons e rest ih =>
    intro seen
    by_cases h : evKey e ∈ seen
    · simpa [dedupAux, h] using ih seen
    · have hrec := ih (evKey e :: seen)
      refine ⟨?_, ?_⟩
      · simp only [dedupAux, h, if_false, List.map_cons, List.nodup_cons]
        exact ⟨fun hmem => (hrec.2 _ hmem) (List.mem_cons_self _ _), hrec.1⟩
      · intro k hk
        simp only [dedupAux, h, if_false, List.map_cons, List.mem_cons] at hk
        rcases hk with hk | hk
        · exact hk ▸ h
        · exact fun hks => (hrec.2 _ hk) (List.mem_cons_of_mem _ hks)

theorem dedupAux_sublist (l : List Evidence) :
    ∀ seen, (dedupAux seen l).Sublist l := by
  induction l with
  | nil => intro seen; simp [dedupAux]
  | cons e rest ih =>
    intro seen
    by_cases h : evKey e ∈ seen
    · simpa [dedupAux, h] using (ih seen).trans (List.sublist_cons_self e rest)
    · simpa [dedupAux, h] using List.Sublist.cons₂ e (ih (evKey e :: seen))

/-- C4 counterexample: the claim that no two evidence items of a process_url
result share the tuple (category, patternId, source, first 300 chars of match)
fails, because header-cookie evidence is appended after the dedup step: with no
HTML or network evidence and a Set-Cookie scan that matches hubspotutk twice,
the assembled evidence list carries two identical keys. -/
theorem assembleEvidence_header_dup :
    ¬ ((assembleEvidence [] [] ["hubspotutk", "hubspotutk"]).map evKey).Nodup := by
  decide

/-- C4 amended: deduplication by (category, patternId, source, first 300 chars
of match) is applied to the concatenated HTML- and network-derived evidence
before it is included in the result, and the deduplicated part has pairwise
distinct keys and is an order-preserving sublist of its input; the
Set-Cookie-header-derived evidence is appended afterwards and is not
deduplicated. -/
theorem assembleEvidence_spec (htmlEv netEv : List Evidence)
    (cookieMatches : List String) :
    assembleEvidence htmlEv netEv cookieMatches
      = dedupEvidence (htmlEv ++ netEv) ++ headerCookieEvidence cookieMatches ∧
    ((dedupEvidence (htmlEv ++ netEv)).map evKey).Nodup ∧
    (dedupEvidence (htmlEv ++ netEv)).Sublist (htmlEv ++ netEv) :=
  ⟨rfl, (dedupAux_key_nodup (htmlEv ++ netEv) []).1, dedupAux_sublist (htmlEv ++ netEv) []⟩

/-- C7: for every Set-Cookie cookie-name match, process_url appends a
cookies-category evidence item with source header; a matched name equal to
hubspotutk case-insensitively gets confidence definitive and any other matched
name gets strong; a hubspotutk header cookie alone makes summary tracking true. -/
theorem headerCookieEvidence_spec (cookieMatches : List String) :
    ((headerCookieEvidence cookieMatches).length = cookieMatches.length) ∧
    (∀ name ∈ cookieMatches, mkHeaderCookieEv name ∈ headerCookieEvidence cookieMatches) ∧
    (∀ name : String, (mkHeaderCookieEv name).category = "cookies" ∧
      (mkHeaderCookieEv name).source = "header" ∧
      (mkHeaderCookieEv name).patternId = "cookie_any") ∧
    (∀ name : String, ((mkHeaderCookieEv name).confidence = "definitive" ↔
      pyLower name = "hubspotutk")) ∧
    (∀ name : String, pyLower name ≠ "hubspotutk" →
      (mkHeaderCookieEv name).confidence = "strong") ∧
    (summarise (headerCookieEvidence ["hubspotutk"])).tracking = true := by
  refine ⟨List.length_map _ _, fun name h => List.mem_map_of_mem _ h, ?_, ?_, ?_, by decide⟩
  · intro name; exact ⟨rfl, rfl, rfl⟩
  · intro name
    by_cases h : pyLower name = "hubspotutk" <;>
      simp [mkHeaderCookieEv, h]
  · intro name h
    simp [mkHeaderCookieEv, h]

/-- Witness for headerCookieEvidence_spec: the item for a literal hubspotutk
Set-Cookie match is definitive, and that cookie alone makes tracking true. -/
theorem headerCookieEvidence_spec_witness :
    (mkHeaderCookieEv "hubspotutk").confidence = "definitive" ∧
    (summarise (headerCookieEvidence ["hubspotutk"])).tracking = true :=
  ⟨((headerCookieEvidence_spec ["hubspotutk"]).2.2.2.1 "hubspotutk").mpr (by decide),
   (headerCookieEvidence_spec ["hubspotutk"]).2.2.2.2.2⟩

/-- Page metadata dict from crawler.extract_page_metadata. -/
structure PageMetadata where
  title : Option String
  description : Option String
deriving DecidableEq

/-- hub_ids accumulation in detector.make_result (lines 240-244): insertion
ordered distinct integer hubId values across the evidence; a non-integer hubId
is modelled as none. -/
def hubIdsOf (evidence : List Evidence) : List Int :=
  evidence.foldl (fun acc e =>
    match e.hubId with
    | some hid => if hid ∈ acc then acc else acc ++ [hid]
    | none => acc) []

/-- Result dict from detector.make_result (lines 238-270) as it stands in the
source: five parameters (url, evidence, headers, http_status, page_metadata);
the utcnow timestamp is passed in as an explicit clock value. -/
structure ResultRecord where
  url : String
  timestamp : String
  hubspot_detected : Bool
  hubIds : List Int
  summary : Summary
  evidence : List Evidence
  headers : List (String × String)
  http_status : Option Int
  page_metadata : Option PageMetadata
deriving DecidableEq

/-- detector.make_result body (lines 240-270). -/
def make_result (url : String) (evidence : List Evidence)
    (headers : List (String × String)) (http_status : Option Int)
    (page_metadata : Option PageMetadata) (timestamp : String) : ResultRecord :=
  let summary := summarise evidence
  let hubspot_detected := summary.tracking || summary.cmsHosting ||
    (summary.features.forms || summary.features.chat || summary.features.ctasLegacy ||
     summary.features.meetings || summary.features.video ||
     summary.features.emailTrackingIndicators)
  { url := url, timestamp := timestamp, hubspot_detected := hubspot_detected,
    hubIds := hubIdsOf evidence, summary := summary, evidence := evidence,
    headers := headers, http_status := http_status, page_metadata := page_metadata }

/-- The key set of the dict make_result returns: url, timestamp,
hubspot_detected, hubIds, summary, evidence, headers, plus http_status and
page_metadata only when those arguments are not None (lines 254-268). -/
def makeResultKeys (http_status : Option Int) (page_metadata : Option PageMetadata) :
    List String :=
  ["url", "timestamp", "hubspot_detected", "hubIds", "summary", "evidence", "headers"]
    ++ (if http_status.isSome then ["http_status"] else [])
    ++ (if page_metadata.isSome then ["page_metadata"] else [])

/-- Parameter list of detector.make_result as defined in the source
(detector.py line 238): url and evidence are required, the last three have
defaults. -/
def makeResultParams : List String :=
  ["url", "evidence", "headers", "http_status", "page_metadata"]

/-- Number of trailing make_result parameters that carry default values. -/
def makeResultNumDefaults : Nat := 3

/-- Python argument binding for a plain function: a call with nPos positional
arguments and the given keyword names binds (returns normally rather than
raising TypeError) iff there are at most as many positional arguments as
parameters, every keyword names a parameter not already bound positionally,
and every parameter without a default value is bound. -/
def bindCall (params : List String) (numDefaults nPos : Nat) (kw : List String) : Bool :=
  decide (nPos ≤ params.length) &&
  kw.all (fun k => params.contains k && !((params.take nPos).contains k)) &&
  (params.take (params.length - numDefaults)).all
    (fun p => (params.take nPos).contains p || kw.contains p)

/-- C1 fails on the source: process_url calls
make_result(original_url, final_url, ev, headers=..., http_status=...,
page_metadata=...) with three positional arguments, so the headers keyword
collides with the third positional parameter and the call raises TypeError
instead of succeeding; moreover the dict a legal make_result call returns is
keyed by url and contains neither an originalUrl/original_url key nor a
finalUrl/final_url key. A two-positional-argument call (the signature actually
defined in detector.py) does bind. -/
theorem makeResult_call_mismatch :
    bindCall makeResultParams makeResultNumDefaults 3
        ["headers", "http_status", "page_metadata"] = false ∧
    bindCall makeResultParams makeResultNumDefaults 2 [] = true ∧
    "originalUrl" ∉ makeResultKeys (some 200) (some ⟨none, none⟩) ∧
    "finalUrl" ∉ makeResultKeys (some 200) (some ⟨none, none⟩) ∧
    "original_url" ∉ makeResultKeys (some 200) (some ⟨none, none⟩) ∧
    "final_url" ∉ makeResultKeys (some 200) (some ⟨none, none⟩) := by
  decide

/-- One entry of the BlockDetector sliding window (crawler.py line 300):
(url, domain, is_blocking, timestamp); the monotonic timestamp is never read by
is_likely_blocked and is omitted. -/
structure AttemptEntry where
  url : String
  domain : String
  is_blocking : Bool
deriving DecidableEq

/-- BlockDetector state (crawler.py lines 255-268): threshold, window_size and
the deque of recent attempts, most recent last, together with the retry deque
(only its length is read by is_likely_blocked). -/
structure BlockDetector where
  threshold : Nat
  window_size : Nat
  recent_attempts : List AttemptEntry
  failed_urls_for_retry : List String
deriving DecidableEq

/-- Stats dict built by is_likely_blocked (crawler.py lines 348-355). -/
structure BlockStats where
  blocking_failures : Nat
  total_attempts : Nat
  blocking_rate : ℚ
  unique_domains : Nat
  affected_domains : List String
  retry_queue_size : Nat
deriving DecidableEq

/-- Python slice l[-k:] on a list: the whole list when k = 0, otherwise the
last min(k, length) elements. -/
def lastSlice (l : List α) (k : Nat) : List α :=
  if k = 0 then l else l.drop (l.length - k)

/-- First-seen-order deduplication, modelling the Python set of domains (only
its size and an arbitrary five-element sample are read). -/
def firstSeen [DecidableEq α] (l : List α) : List α :=
  l.foldl (fun acc x => if x ∈ acc then acc else acc ++ [x]) []

/-- BlockDetector.is_likely_blocked (crawler.py lines 306-357); the float
blocking-rate arithmetic is modelled exactly over the rationals. -/
def is_likely_blocked (d : BlockDetector) : Bool × Option BlockStats :=
  let blocking_failures := d.recent_attempts.filter (fun a => a.is_blocking)
  if blocking_failures.length < d.threshold then (false, none)
  else
    let recent_blocking := lastSlice blocking_failures d.threshold
    let unique_domains := firstSeen (recent_blocking.map (fun a => a.domain))
    let total_in_window := d.recent_attempts.length
    let blocking_rate : ℚ := (blocking_failures.length : ℚ) / (max total_in_window 1 : ℚ)
    let is_blocked :=
      decide (blocking_failures.length ≥ d.threshold) &&
      decide (unique_domains.length ≥ 2) &&
      decide (blocking_rate ≥ (3 : ℚ) / 5)
    (is_blocked,
     some { blocking_failures := blocking_failures.length,
            total_attempts := total_in_window,
            blocking_rate := blocking_rate,
            unique_domains := unique_domains.length,
            affected_domains := unique_domains.take 5,
            retry_queue_size := d.failed_urls_for_retry.length })

/-- The C3 claim, word for word: the count of blocking entries in the window is
at least threshold, the last threshold blocking entries span at least 2 distinct
domains, and the count of blocking entries divided by max(windowSize, 1) is at
least 0.60, where windowSize is the number of entries currently in the window. -/
def specBlocked (d : BlockDetector) : Prop :=
  let bf := d.recent_attempts.filter (fun a => a.is_blocking)
  bf.length ≥ d.threshold ∧
  (firstSeen ((bf.drop (bf.length - d.threshold)).map (fun a => a.domain))).length ≥ 2 ∧
  (bf.length : ℚ) / (max d.recent_attempts.length 1 : ℚ) ≥ (3 : ℚ) / 5

/-- A detector state with threshold 0 and two blocking entries on two domains. -/
def zeroThresholdDetector : BlockDetector :=
  { threshold := 0, window_size := 20,
    recent_attempts :=
      [{ url := "https://a.com/1", domain := "a.com", is_blocking := true },
       { url := "https://b.com/1", domain := "b.com", is_blocking := true }],
    failed_urls_for_retry := [] }

/-- C3 counterexample: with threshold 0 the Python slice bf[-threshold:] is the
whole list, so is_likely_blocked returns true although the last 0 blocking
entries span 0 distinct domains and the claimed conjunction is false. -/
theorem is_likely_blocked_not_iff_at_zero :
    (is_likely_blocked zeroThresholdDetector).1 = true ∧
    ¬ specBlocked zeroThresholdDetector := by
  constructor
  · norm_num [is_likely_blocked, zeroThresholdDetector, lastSlice, firstSeen, List.filter]
    decide
  · intro h
    exact absurd h.2.1 (by decide)

/-- C3 amended: for every block-detector state whose threshold is at least 1,
is_likely_blocked returns true iff the three conditions hold at once: blocking
entries in the window at least threshold, at least 2 distinct domains across
the last threshold blocking entries, and blocking rate at least 0.60 of the
entries currently in the window. -/
theorem is_likely_blocked_iff (d : BlockDetector) (h : 1 ≤ d.threshold) :
    (is_likely_blocked d).1 = true ↔ specBlocked d := by
  unfold is_likely_blocked specBlocked
  by_cases hlt : (d.recent_attempts.filter (fun a => a.is_blocking)).length < d.threshold
  · simp only [hlt, if_true]
    constructor
    · intro hfalse; exact absurd hfalse (by simp)
    · intro hspec
      exact absurd hspec.1 (Nat.not_le.mpr hlt)
  · have hth : d.threshold ≠ 0 := Nat.one_le_iff_ne_zero.mp h
    simp only [hlt, if_false, lastSlice, hth, Bool.and_eq_true, decide_eq_true_eq]
    constructor
    · rintro ⟨⟨h1, h2⟩, h3⟩
      exact ⟨h1, h2, h3⟩
    · rintro ⟨h1, h2, h3⟩
      exact ⟨⟨h1, h2⟩, h3⟩

/-- Witness for is_likely_blocked_iff: five blocking failures across two domains
in a window of seven entries trip the detector. -/
theorem is_likely_blocked_iff_witness :
    (is_likely_blocked
      { threshold := 5, window_size := 20,
        recent_attempts :=
          [{ url := "https://x.com/1", domain := "x.com", is_blocking := true },
           { url := "https://y.com/1", domain := "y.com", is_blocking := true },
           { url := "https://x.com/2", domain := "x.com", is_blocking := true },
           { url := "https://y.com/2", domain := "y.com", is_blocking := true },
           { url := "https://x.com/3", domain := "x.com", is_blocking := true },
           { url := "https://ok.com/1", domain := "ok.com", is_blocking := false },
           { url := "https://ok.com/2", domain := "ok.com", is_blocking := false }],
        failed_urls_for_retry := [] }).1 = true := by
  rw [is_likely_blocked_iff _ (by decide)]
  unfold specBlocked
  refine ⟨by decide, by decide, ?_⟩
  norm_num [List.filter]

/-- Characters allowed in a URL scheme (urllib.parse.scheme_chars). -/
def schemeChars : List Char :=
  "abcdefghijklmnopqrstuvwxyzABCDEFGHIJKLMNOPQRSTUVWXYZ0123456789+-.".data

/-- Python s.split(c, 1): the part before the first occurrence of c and the
part after it, or none when c does not occur. -/
def splitFirst : List Char → Char → Option (List Char × List Char)
  | [], _ => none
  | x :: xs, c =>
    if x == c then some ([], xs)
    else
      match splitFirst xs c with
      | some (a, b) => some (x :: a, b)
      | none => none

/-- urllib.parse._splitnetloc applied from index 2: the netloc runs until the
first of the delimiters slash, question mark or hash. -/
def splitNetloc : List Char → List Char × List Char
  | [] => ([], [])
  | x :: xs =>
    if x == '/' || x == '?' || x == '#' then ([], x :: xs)
    else
      let r := splitNetloc xs
      (x :: r.1, r.2)

/-- Split at the last occurrence of c, or none when c does not occur. -/
def splitLast (l : List Char) (c : Char) : Option (List Char × List Char) :=
  match splitFirst l.reverse c with
  | some (a, b) => some (b.reverse, a.reverse)
  | none => none

/-- The five components produced by urllib.parse.urlsplit. -/
structure SplitResult where
  scheme : String
  netloc : String
  path : String
  query : String
  fragment : String
deriving DecidableEq

/-- The component computation of urllib.parse.urlsplit (CPython 3.11): split
off a lowercased scheme when the text before the first colon is nonempty,
starts with an ASCII letter and consists of scheme characters; then the netloc
after a leading double slash, then the fragment after the first hash, then the
query after the first question mark. This is the value urlsplit returns when
it does not raise; splitUrlChecked below adds the control-character stripping
and the ValueError paths of the source. -/
def splitUrl (url : String) : SplitResult :=
  let cs := url.data
  let schemeRest : List Char × List Char :=
    match splitFirst cs ':' with
    | some (b :: bs, after) =>
      if b.isAlpha && (b :: bs).all (fun c => schemeChars.contains c) then
        ((b :: bs).map Char.toLower, after)
      else ([], cs)
    | _ => ([], cs)
  let netlocRest : List Char × List Char :=
    if schemeRest.2.take 2 == ['/', '/'] then splitNetloc (schemeRest.2.drop 2)
    else ([], schemeRest.2)
  let restFrag : List Char × List Char :=
    match splitFirst netlocRest.2 '#' with
    | some (a, b) => (a, b)
    | none => (netlocRest.2, [])
  let pathQuery : List Char × List Char :=
    match splitFirst restFrag.1 '?' with
    | some (a, b) => (a, b)
    | none => (restFrag.1, [])
  { scheme := ⟨schemeRest.1⟩, netloc := ⟨netlocRest.1⟩, path := ⟨pathQuery.1⟩,
    query := ⟨pathQuery.2⟩, fragment := ⟨restFrag.2⟩ }

/-- The six components produced by urllib.parse.urlparse. -/
structure ParseResult where
  scheme : String
  netloc : String
  path : String
  params : String
  query : String
  fragment : String
deriving DecidableEq

/-- urllib.parse.uses_params. -/
def usesParams : List String :=
  ["", "ftp", "hdl", "prospero", "http", "imap", "https", "shttp", "rtsp",
   "rtsps", "rtspu", "sip", "sips", "mms", "sftp", "tel"]

/-- urllib.parse.uses_netloc. -/
def usesNetloc : List String :=
  ["", "ftp", "http", "gopher", "nntp", "telnet", "imap", "wais", "file",
   "mms", "https", "shttp", "snews", "prospero", "rtsp", "rtsps", "rtspu",
   "rsync", "svn", "svn+ssh", "sftp", "nfs", "git", "git+ssh", "ws", "wss"]

/-- urllib.parse._splitparams: the params are what follows the first semicolon
at or after the last slash (or the first semicolon at all when the path has no
slash). -/
def splitParams (path : List Char) : List Char × List Char :=
  if path.contains '/' then
    match splitLast path '/' with
    | some (pre, post) =>
      match splitFirst post ';' with
      | some (a, b) => (pre ++ '/' :: a, b)
      | none => (path, [])
    | none => (path, [])
  else
    match splitFirst path ';' with
    | some (a, b) => (a, b)
    | none => (path, [])

/-- The params-splitting step urlparse applies on top of urlsplit, for schemes
that use parameters. -/
def paramsSplitOf (s : SplitResult) : ParseResult :=
  if usesParams.contains s.scheme && s.path.data.contains ';' then
    let pp := splitParams s.path.data
    { scheme := s.scheme, netloc := s.netloc, path := ⟨pp.1⟩, params := ⟨pp.2⟩,
      query := s.query, fragment := s.fragment }
  else
    { scheme := s.scheme, netloc := s.netloc, path := s.path, params := "",
      query := s.query, fragment := s.fragment }

/-- urllib.parse.urlparse on the non-raising path: urlsplit plus params
splitting; urlparseChecked below adds the ValueError paths. -/
def urlparse (url : String) : ParseResult :=
  paramsSplitOf (splitUrl url)

/-- urllib.parse.urlunsplit (CPython 3.11). -/
def urlunsplitStr (scheme netloc path query fragment : String) : String :=
  let url1 :=
    if netloc ≠ "" ∨ (scheme ≠ "" ∧ usesNetloc.contains scheme ∧
        path.data.take 2 ≠ ['/', '/']) then
      let u := if path ≠ "" ∧ path.data.head? ≠ some '/' then "/" ++ path else path
      "//" ++ netloc ++ u
    else path
  let url2 := if scheme ≠ "" then scheme ++ ":" ++ url1 else url1
  let url3 := if query ≠ "" then url2 ++ "?" ++ query else url2
  if fragment ≠ "" then url3 ++ "#" ++ fragment else url3

/-- urllib.parse.urlunparse: params are rejoined to the path with a semicolon,
then urlunsplit reassembles the URL. -/
def urlunparse (p : ParseResult) : String :=
  urlunsplitStr p.scheme p.netloc
    (if p.params ≠ "" then p.path ++ ";" ++ p.params else p.path) p.query p.fragment

/-- crawler.normalize_url (crawler.py lines 369-373): prepend https when the
URL has no scheme. -/
def normalize_url (url : String) : String :=
  if (splitUrl url).scheme = "" then "https://" ++ url else url

/-- Python netloc.startswith("www."). -/
def startsWithWWW (netloc : String) : Bool := netloc.data.take 4 == "www.".data

/-- Python path.endswith("/"). -/
def endsWithSlash (path : String) : Bool := path.data.getLast? == some '/'

/-- Python path.rstrip("/"): all trailing slashes removed. -/
def rstripSlash (path : String) : String :=
  ⟨(path.data.reverse.dropWhile (fun c => c == '/')).reverse⟩

/-- The candidate variation list of crawler.generate_url_variations
(crawler.py lines 391-414) in priority order: toggle the www prefix on the
host, flip the scheme between http and https, add a trailing slash when the
path lacks one, strip the trailing slash when the path ends with one and is
not the root. -/
def variationCandidatesOf (parsed : ParseResult) : List String :=
  (if startsWithWWW parsed.netloc then
      [urlunparse { parsed with netloc := ⟨parsed.netloc.data.drop 4⟩ }]
    else
      [urlunparse { parsed with netloc := "www." ++ parsed.netloc }]) ++
  [urlunparse { parsed with
      scheme := if parsed.scheme == "https" then "http" else "https" }] ++
  (if endsWithSlash parsed.path = false then
      [urlunparse { parsed with path := parsed.path ++ "/" }]
    else []) ++
  (if endsWithSlash parsed.path = true ∧ parsed.path ≠ "/" then
      [urlunparse { parsed with path := rstripSlash parsed.path }]
    else [])

/-- The candidate list built from the parse of the input URL. -/
def variationCandidates (url : String) : List String :=
  variationCandidatesOf (urlparse url)

/-- The seen-set filter of crawler.generate_url_variations (lines 417-422):
keep a variation when it was not seen before and differs from the input URL. -/
def dedupDropAux (url : String) (seen : List String) : List String → List String
  | [] => []
  | v :: rest =>
    if v ∈ seen ∨ v = url then dedupDropAux url seen rest
    else v :: dedupDropAux url (v :: seen) rest

/-- crawler.generate_url_variations (crawler.py lines 375-424). -/
def generate_url_variations (url : String) (max_variations : Nat) : List String :=
  (dedupDropAux url [] (variationCandidates url)).take max_variations

theorem dedupDropAux_props (url : String) (l : List String) :
    ∀ seen, (dedupDropAux url seen l).Nodup ∧
      (∀ v ∈ dedupDropAux url seen l, v ∉ seen ∧ v ≠ url) ∧
      (dedupDropAux url seen l).Sublist l := by
  induction l with
  | nil => intro seen; exact ⟨List.nodup_nil, by simp [dedupDropAux], by simp [dedupDropAux]⟩
  | cons v rest ih =>
    intro seen
    by_cases h : v ∈ seen ∨ v = url
    · have heq : dedupDropAux url seen (v :: rest) = dedupDropAux url seen rest := by
        simp [dedupDropAux, h]
      refine ⟨heq ▸ (ih seen).1, heq ▸ (ih seen).2.1, heq ▸ ((ih seen).2.2.trans
        (List.sublist_cons_self v rest))⟩
    · push_neg at h
      have heq : dedupDropAux url seen (v :: rest)
          = v :: dedupDropAux url (v :: seen) rest := by
        simp [dedupDropAux, h.1, h.2]
      rw [heq]
      have hrec := ih (v :: seen)
      refine ⟨?_, ?_, List.Sublist.cons₂ v hrec.2.2⟩
      · exact List.nodup_cons.mpr
          ⟨fun hmem => (hrec.2.1 v hmem).1 (List.mem_cons_self _ _), hrec.1⟩
      · intro w hw
        rcases List.mem_cons.mp hw with hw | hw
        · exact hw ▸ ⟨h.1, h.2⟩
        · exact ⟨fun hws => (hrec.2.1 w hw).1 (List.mem_cons_of_mem _ hws),
            (hrec.2.1 w hw).2⟩

/-- The preprocessing urlsplit applies before parsing (CPython 3.11): strip
leading WHATWG C0-control-or-space characters (code points up to 32), then
remove every tab, carriage return and line feed. -/
def wstrip (url : String) : String :=
  ⟨(url.data.dropWhile (fun c => c.toNat ≤ 32)).filter
      (fun c => !(c == Char.ofNat 9 || c == Char.ofNat 13 || c == Char.ofNat 10))⟩

/-- The bracketed host netloc.partition("[")[2].partition("]")[0] that
urlsplit validates: the text after the first opening bracket up to the first
closing bracket. -/
def bracketedHost (netloc : List Char) : List Char :=
  match splitFirst netloc '[' with
  | some (_, rest) =>
    match splitFirst rest ']' with
    | some (h, _) => h
    | none => rest
  | none => []

/-- The two urlsplit validations that depend on the ipaddress and unicodedata
libraries, abstracted: bracketedHostOk h holds when _check_bracketed_host(h)
returns normally (h is a valid bracketed IPv6 or IPvFuture literal), and
nonAsciiNetlocOk n holds when _checknetloc(n) returns normally on a non-ASCII
netloc (its NFKC normalization introduces no extra delimiter). The theorems
below hold for every choice of validators. -/
structure UrlValidators where
  bracketedHostOk : String → Bool
  nonAsciiNetlocOk : String → Bool

/-- urllib.parse.urlsplit (CPython 3.11) with its ValueError paths modelled as
Except.error: after stripping, a netloc with exactly one kind of square
bracket is an Invalid IPv6 URL; a bracketed host must pass
_check_bracketed_host; a nonempty non-ASCII netloc must pass _checknetloc.
The checks only read the netloc, so they are applied to the components
computed by splitUrl. -/
def splitUrlChecked (V : UrlValidators) (url : String) :
    Except String SplitResult :=
  let s := splitUrl (wstrip url)
  let n := s.netloc.data
  if (n.contains '[' && !(n.contains ']')) ||
      (n.contains ']' && !(n.contains '[')) then
    .error "Invalid IPv6 URL"
  else if n.contains '[' && n.contains ']' &&
      !(V.bracketedHostOk ⟨bracketedHost n⟩) then
    .error "bracketed host is not a valid IPv6 or IPvFuture address"
  else if !(n.isEmpty || n.all (fun c => c.toNat ≤ 127)) &&
      !(V.nonAsciiNetlocOk s.netloc) then
    .error "netloc contains invalid characters under NFKC normalization"
  else .ok s

/-- urllib.parse.urlparse with its ValueError paths: the error raised by
urlsplit propagates; on success the params are split off. -/
def urlparseChecked (V : UrlValidators) (url : String) :
    Except String ParseResult :=
  match splitUrlChecked V url with
  | .error e => .error e
  | .ok s => .ok (paramsSplitOf s)

/-- crawler.generate_url_variations (crawler.py lines 375-424) with the
urlparse error paths modelled: a ValueError raised inside
urllib.parse.urlparse propagates out of the function uncaught; on a successful
parse the candidate list is built, filtered and truncated as in the source. -/
def generate_url_variations_checked (V : UrlValidators) (url : String)
    (max_variations : Nat) : Except String (List String) :=
  match urlparseChecked V url with
  | .error e => .error e
  | .ok parsed =>
    .ok ((dedupDropAux url [] (variationCandidatesOf parsed)).take max_variations)

/-- Validators that accept every bracketed host and every non-ASCII netloc. -/
def permissiveValidators : UrlValidators :=
  { bracketedHostOk := fun _ => true, nonAsciiNetlocOk := fun _ => true }

/-- C8 counterexample: the claim quantifies over every input URL, but at the
input http://[abc the source raises ValueError (Invalid IPv6 URL) inside
urllib.parse.urlparse instead of returning a list, a mismatched-bracket error
that is raised before either library-dependent validator is consulted, so it
occurs under every choice of validators; shown here with the permissive ones. -/
theorem generate_url_variations_error_on_bad_ipv6 :
    generate_url_variations_checked permissiveValidators "http://[abc" 4
      = Except.error "Invalid IPv6 URL" := rfl

/-- C8 amended: for every input URL that urlparse accepts (returns rather than
raises, under any choice of the library-dependent validators),
generate_url_variations returns a duplicate-free list that does not contain
the input URL, has length at most maxN, equals the first maxN survivors of
the seen-set filter over the candidate list, and is an order-preserving
sublist of the priority-ordered candidates: www prefix toggled, scheme
flipped, trailing slash added when the path lacks one, trailing slash
stripped when the path ends with one and is not the root. -/
theorem generate_url_variations_checked_spec (V : UrlValidators) (url : String)
    (maxN : Nat) (parsed : ParseResult)
    (h : urlparseChecked V url = .ok parsed) :
    generate_url_variations_checked V url maxN
      = .ok ((dedupDropAux url [] (variationCandidatesOf parsed)).take maxN) ∧
    ((dedupDropAux url [] (variationCandidatesOf parsed)).take maxN).Nodup ∧
    url ∉ (dedupDropAux url [] (variationCandidatesOf parsed)).take maxN ∧
    ((dedupDropAux url [] (variationCandidatesOf parsed)).take maxN).length ≤ maxN ∧
    ((dedupDropAux url [] (variationCandidatesOf parsed)).take maxN).Sublist
      (variationCandidatesOf parsed) := by
  have hprops := dedupDropAux_props url (variationCandidatesOf parsed) []
  have htake : ((dedupDropAux url [] (variationCandidatesOf parsed)).take maxN).Sublist
      (dedupDropAux url [] (variationCandidatesOf parsed)) := List.take_sublist _ _
  refine ⟨?_, htake.nodup hprops.1, ?_, ?_, htake.trans hprops.2.2⟩
  · unfold generate_url_variations_checked
    rw [h]
  · intro hmem
    exact (hprops.2.1 url (htake.subset hmem)).2 rfl
  · calc ((dedupDropAux url [] (variationCandidatesOf parsed)).take maxN).length
        = min maxN (dedupDropAux url [] (variationCandidatesOf parsed)).length :=
          List.length_take _ _
      _ ≤ maxN := min_le_left _ _

/-- Witness for generate_url_variations_checked_spec: for the accepted input
https://example.com the function returns the three surviving variations in
priority order. -/
theorem generate_url_variations_checked_spec_witness :
    generate_url_variations_checked permissiveValidators "https://example.com" 4
      = Except.ok ["https://www.example.com", "http://example.com",
                   "https://example.com/"] := by
  have h := (generate_url_variations_checked_spec permissiveValidators
    "https://example.com" 4
    { scheme := "https", netloc := "example.com", path := "", params := "",
      query := "", fragment := "" } rfl).1
  rw [h]
  rfl

/-- Outcome of one fetch attempt inside try_url_with_retries: a result with
the http status read from it (crawler.py line 1009), or an exception rendered
as its message string. -/
inductive FetchOutcome where
  | ok (status : Nat)
  | err (msg : String)
deriving DecidableEq

/-- Error classes distinguished by try_url_with_retries. -/
inductive ErrClass where
  | rateLimited
  | blocked
  | transientErr
  | fatal
deriving DecidableEq

/-- The substring classification of try_url_with_retries (crawler.py lines
1016-1033), applied in source order to the lowercased exception message. -/
def classifyError (m : String) : ErrClass :=
  let msg := pyLower m
  if strIn "429" msg || strIn "too many requests" msg then .rateLimited
  else if strIn "403" msg || strIn "forbidden" msg then .blocked
  else if strIn "timeout" msg || strIn "connection" msg || strIn "network" msg ||
      strIn "dns" msg || strIn "5" msg then .transientErr
  else .fatal

/-- Observable outcome of the retry loop of try_url_with_retries from a given
attempt onward: whether a result was returned, the last status code and last
exception message, the classified sleeps performed in order (the 120 s rate
limit penalty and the 5*3^attempt backoffs, in seconds; the randomized pacing
delay of apply_request_delay is not modelled), and the number of fetch attempts
performed. -/
structure DriverOutcome where
  success : Bool
  status : Option Nat
  errMsg : Option String
  sleeps : List Nat
  calls : Nat
deriving DecidableEq

/-- The retry loop of try_url_with_retries (crawler.py lines 988-1045) from
attempt index attempt onward; fetch i gives the outcome of the process_url
call on the i-th attempt. -/
def tryUrlAux (fetch : Nat → FetchOutcome) (max_retries : Nat) (attempt : Nat) :
    DriverOutcome :=
  if _h : attempt < max_retries then
    match fetch attempt with
    | .ok status =>
      { success := true, status := some status, errMsg := none, sleeps := [], calls := 1 }
    | .err m =>
      match classifyError m with
      | .rateLimited =>
        { success := false, status := some 429, errMsg := some m, sleeps := [120], calls := 1 }
      | .blocked =>
        { success := false, status := some 403, errMsg := some m, sleeps := [], calls := 1 }
      | .transientErr =>
        if attempt < max_retries - 1 then
          let rest := tryUrlAux fetch max_retries (attempt + 1)
          { success := rest.success, status := rest.status, errMsg := rest.errMsg,
            sleeps := (5 * 3 ^ attempt) :: rest.sleeps, calls := rest.calls + 1 }
        else
          { success := false, status := none, errMsg := some m, sleeps := [], calls := 1 }
      | .fatal =>
        { success := false, status := none, errMsg := some m, sleeps := [], calls := 1 }
  else { success := false, status := none, errMsg := none, sleeps := [], calls := 0 }
termination_by max_retries - attempt
decreasing_by omega

/-- try_url_with_retries starts the loop at attempt 0. -/
def try_url_with_retries (fetch : Nat → FetchOutcome) (max_retries : Nat) :
    DriverOutcome :=
  tryUrlAux fetch max_retries 0

/-- C5: classification of a failed fetch attempt in the retry driver. When the
lowercased message contains 429 or too many requests, the driver sleeps 120
seconds, performs no further fetch attempts and fails with status 429; when it
contains 403 or forbidden (and not the former), it fails at once with status
403 and no sleep; when it contains timeout, connection, network, dns or the
digit 5 and attempts remain, the driver sleeps 5*3^attempt seconds and retries
at the next attempt index; a transient error on the last attempt, or any other
error, ends the loop after that single fetch with no status. -/
theorem tryUrl_failure_classification (fetch : Nat → FetchOutcome)
    (max_retries attempt : Nat) (m : String)
    (hlt : attempt < max_retries) (hf : fetch attempt = .err m) :
    ((strIn "429" (pyLower m) || strIn "too many requests" (pyLower m)) = true →
      tryUrlAux fetch max_retries attempt =
        { success := false, status := some 429, errMsg := some m,
          sleeps := [120], calls := 1 }) ∧
    ((strIn "429" (pyLower m) || strIn "too many requests" (pyLower m)) = false →
     (strIn "403" (pyLower m) || strIn "forbidden" (pyLower m)) = true →
      tryUrlAux fetch max_retries attempt =
        { success := false, status := some 403, errMsg := some m,
          sleeps := [], calls := 1 }) ∧
    ((strIn "429" (pyLower m) || strIn "too many requests" (pyLower m)) = false →
     (strIn "403" (pyLower m) || strIn "forbidden" (pyLower m)) = false →
     (strIn "timeout" (pyLower m) || strIn "connection" (pyLower m) ||
      strIn "network" (pyLower m) || strIn "dns" (pyLower m) ||
      strIn "5" (pyLower m)) = true →
     attempt < max_retries - 1 →
      tryUrlAux fetch max_retries attempt =
        { success := (tryUrlAux fetch max_retries (attempt + 1)).success,
          status := (tryUrlAux fetch max_retries (attempt + 1)).status,
          errMsg := (tryUrlAux fetch max_retries (attempt + 1)).errMsg,
          sleeps := (5 * 3 ^ attempt) :: (tryUrlAux fetch max_retries (attempt + 1)).sleeps,
          calls := (tryUrlAux fetch max_retries (attempt + 1)).calls + 1 }) ∧
    ((strIn "429" (pyLower m) || strIn "too many requests" (pyLower m)) = false →
     (strIn "403" (pyLower m) || strIn "forbidden" (pyLower m)) = false →
     (strIn "timeout" (pyLower m) || strIn "connection" (pyLower m) ||
      strIn "network" (pyLower m) || strIn "dns" (pyLower m) ||
      strIn "5" (pyLower m)) = true →
     ¬ attempt < max_retries - 1 →
      tryUrlAux fetch max_retries attempt =
        { success := false, status := none, errMsg := some m,
          sleeps := [], calls := 1 }) ∧
    ((strIn "429" (pyLower m) || strIn "too many requests" (pyLower m)) = false →
     (strIn "403" (pyLower m) || strIn "forbidden" (pyLower m)) = false →
     (strIn "timeout" (pyLower m) || strIn "connection" (pyLower m) ||
      strIn "network" (pyLower m) || strIn "dns" (pyLower m) ||
      strIn "5" (pyLower m)) = false →
      tryUrlAux fetch max_retries attempt =
        { success := false, status := none, errMsg := some m,
          sleeps := [], calls := 1 }) := by
  refine ⟨?_, ?_, ?_, ?_, ?_⟩
  · intro h1
    rw [tryUrlAux, dif_pos hlt, hf]
    simp [classifyError, h1]
  · intro h1 h2
    rw [tryUrlAux, dif_pos hlt, hf]
    simp [classifyError, h1, h2]
  · intro h1 h2 h3 h4
    rw [tryUrlAux, dif_pos hlt, hf]
    simp [classifyError, h1, h2, h3, h4]
  · intro h1 h2 h3 h4
    rw [tryUrlAux, dif_pos hlt, hf]
    simp [classifyError, h1, h2, h3, h4]
  · intro h1 h2 h3
    rw [tryUrlAux, dif_pos hlt, hf]
    simp [classifyError, h1, h2, h3]

/-- Witness for tryUrl_failure_classification: a message carrying 429 stops the
driver after one fetch with a 120 s sleep and status 429. -/
theorem tryUrl_failure_classification_witness :
    tryUrlAux (fun _ => .err "HTTP 429 Too Many Requests") 3 0 =
      { success := false, status := some 429,
        errMsg := some "HTTP 429 Too Many Requests", sleeps := [120], calls := 1 } :=
  (tryUrl_failure_classification (fun _ => .err "HTTP 429 Too Many Requests")
    3 0 "HTTP 429 Too Many Requests" (by decide) rfl).1 (by decide)

/-- Failure record built by the worker (crawler.py lines 1178-1202) when all
attempts fail; the utcnow timestamp is passed in as an explicit clock value. -/
structure FailureRecord where
  original_url : String
  final_url : String
  timestamp : String
  hubspot_detected : Bool
  hubIds : List Int
  summary : Summary
  evidence : List Evidence
  headers : List (String × String)
  error : String
  attempts : Nat
  attempted_urls : List String
deriving DecidableEq

/-- The empty summary embedded in a failure record (crawler.py lines 1184-1196). -/
def emptyFailureSummary : Summary :=
  { tracking := false, cmsHosting := false,
    features := { forms := false, chat := false, ctasLegacy := false,
                  meetings := false, video := false,
                  emailTrackingIndicators := false },
    confidence := "weak" }

/-- worker failure-record construction (crawler.py lines 1173-1202): the
attempted urls are the normalized input followed, when variations are enabled,
by its variations; the attempts field is the configured max_retries constant. -/
def mkFailureRecord (u : String) (max_retries max_variations : Nat)
    (try_variations : Bool) (timestamp : String) : FailureRecord :=
  let attempted_urls := normalize_url u ::
    (if try_variations then
        generate_url_variations (normalize_url u) max_variations
      else [])
  { original_url := u, final_url := u, timestamp := timestamp,
    hubspot_detected := false, hubIds := [], summary := emptyFailureSummary,
    evidence := [], headers := [],
    error := "Failed after all retry attempts" ++
      (if try_variations then
          " and " ++ toString (attempted_urls.length - 1) ++ " URL variations"
        else ""),
    attempts := max_retries, attempted_urls := attempted_urls }

/-- C10: the attempts field of every worker failure record equals the
configured max_retries, even on driver paths that stop after a single fetch
attempt (a 429, 403 or non-transient first error). -/
theorem failureRecord_attempts_eq_max_retries (u : String)
    (max_retries max_variations : Nat) (try_variations : Bool) (timestamp : String)
    (fetch : Nat → FetchOutcome) (m : String)
    (h1 : 0 < max_retries) (h2 : fetch 0 = .err m)
    (h3 : classifyError m ≠ ErrClass.transientErr) :
    (mkFailureRecord u max_retries max_variations try_variations timestamp).attempts
      = max_retries ∧
    (try_url_with_retries fetch max_retries).calls = 1 := by
  refine ⟨rfl, ?_⟩
  unfold try_url_with_retries
  rw [tryUrlAux, dif_pos h1, h2]
  cases hc : classifyError m
  · simp [hc]
  · simp [hc]
  · exact absurd hc h3
  · simp [hc]

/-- Witness for failureRecord_attempts_eq_max_retries: a first-attempt 403
with max_retries 3 yields a single fetch call yet a failure record whose
attempts field reads 3. -/
theorem failureRecord_attempts_witness :
    (mkFailureRecord "example.com" 3 4 false "2025-01-01T00:00:00Z").attempts = 3 ∧
    (try_url_with_retries (fun _ => .err "HTTP 403 Forbidden") 3).calls = 1 :=
  failureRecord_attempts_eq_max_retries "example.com" 3 4 false
    "2025-01-01T00:00:00Z" (fun _ => .err "HTTP 403 Forbidden")
    "HTTP 403 Forbidden" (by decide) rfl (by decide)

/-- Data of an httpx response as read by fetch_html: body text, headers,
post-redirect URL str(r.url) and status code. -/
structure HttpResponse where
  text : String
  headers : List (String × String)
  respUrl : String
  status_code : Nat
deriving DecidableEq

/-- crawler.fetch_html (lines 583-599): on the success path and on the
HTTPStatusError path alike it returns the body, the headers, the status code
and the post-redirect URL of the response; network-level errors raise
RuntimeError instead and never reach this tuple. -/
def fetch_html (r : HttpResponse) : String × List (String × String) × Nat × String :=
  (r.text, r.headers, r.status_code, r.respUrl)

/-- The final_url computation of process_url on the static fetch path
(crawler.py lines 636-661): final_url starts as the normalized url, is
overwritten by the post-redirect URL returned by fetch_html, and is reset to
original_url when the status code is at least 400. -/
def processUrlFinalUrl (original_url _url : String) (r : HttpResponse) : String :=
  let fetched := fetch_html r
  let final_url := fetched.2.2.2
  if r.status_code ≥ 400 then original_url else final_url

/-- C6: the final url process_url records is the exact original input URL
whenever the http status is at least 400, and the post-redirect URL reported
by the fetcher for statuses below 400. -/
theorem processUrlFinalUrl_spec (original_url url : String) (r : HttpResponse) :
    (r.status_code ≥ 400 → processUrlFinalUrl original_url url r = original_url) ∧
    (r.status_code < 400 → processUrlFinalUrl original_url url r = r.respUrl) := by
  constructor
  · intro h
    simp [processUrlFinalUrl, h]
  · intro h
    simp [processUrlFinalUrl, fetch_html, Nat.not_le.mpr h]

/-- Witness for processUrlFinalUrl_spec: a 404 response fetched from the
normalized form of example.com keeps original_url as the final url, and a 200
response keeps the post-redirect URL. -/
theorem processUrlFinalUrl_spec_witness :
    processUrlFinalUrl "example.com" "https://example.com"
      { text := "", headers := [], respUrl := "https://example.com/404",
        status_code := 404 } = "example.com" ∧
    processUrlFinalUrl "example.com" "https://example.com"
      { text := "", headers := [], respUrl := "https://www.example.com/",
        status_code := 200 } = "https://www.example.com/" :=
  ⟨(processUrlFinalUrl_spec "example.com" "https://example.com"
      { text := "", headers := [], respUrl := "https://example.com/404",
        status_code := 404 }).1 (by decide),
   (processUrlFinalUrl_spec "example.com" "https://example.com"
      { text := "", headers := [], respUrl := "https://www.example.com/",
        status_code := 200 }).2 (by decide)⟩

/-- A regex match as consumed by detect_html: the matched text m.group(0) and
the numeric capture group 1 when present. The pattern table itself is loaded
at runtime from a JSON resource that is not part of the sources, so matching
is abstracted by an oracle from pattern id to the first match in the body;
theorems quantify over every oracle. -/
structure MatchRes where
  whole : String
  group1 : Option Int
deriving DecidableEq

/-- The single-pattern evidence block of detect_html: one item when the
pattern matched, none otherwise. -/
def optEv (o : Option MatchRes) (f : MatchRes → Evidence) : List Evidence :=
  o.toList.map f

/-- detector.detect_html (detector.py lines 31-154), block for block in source
order, with each RX[key].search(html) abstracted as M key and the finditer
loop over cookie_any abstracted as the list of its matches. -/
def detect_html (M : String → Option MatchRes) (cookieMatches : List String) :
    List Evidence :=
  (if (M "tracking_loader_script").isSome then
      optEv (M "tracking_loader_script") (fun m =>
        pushEv "tracking" "tracking_loader_script" m.whole "html" m.group1 "definitive")
    else
      optEv (M "tracking_script_any") (fun m =>
        pushEv "tracking" "tracking_script_any" m.whole "html" m.group1 "strong")) ++
  optEv (M "analytics_core") (fun m =>
    pushEv "tracking" "analytics_core" m.whole "html" m.group1 "strong") ++
  optEv (M "_hsq_presence") (fun m =>
    pushEv "tracking" "_hsq_presence" m.whole "html" none "strong") ++
  optEv (M "banner_helper") (fun m =>
    pushEv "tracking" "banner_helper" m.whole "html" none "strong") ++
  optEv (M "url_params_hs") (fun m =>
    pushEv "tracking" "url_params_hs" m.whole "html" none "moderate") ++
  cookieMatches.map (fun s => pushEv "cookies" "cookie_any" s "html" none "moderate") ++
  optEv (M "forms_v2_loader") (fun m =>
    pushEv "forms" "forms_v2_loader" m.whole "html" none
      (if (M "forms_create_call").isSome then "definitive" else "strong")) ++
  optEv (M "forms_create_call") (fun m =>
    pushEv "forms" "forms_create_call" m.whole "html" none "definitive") ++
  optEv (M "forms_hidden_hs_context") (fun m =>
    pushEv "forms" "forms_hidden_hs_context" m.whole "html" none "strong") ++
  optEv (M "chat_usemessages_js") (fun m =>
    pushEv "chat" "chat_usemessages_js" m.whole "html" none "definitive") ++
  optEv (M "chat_usemessages_api") (fun m =>
    pushEv "chat" "chat_usemessages_api" m.whole "html" none "definitive") ++
  optEv (M "cookie_messagesUtk") (fun m =>
    pushEv "chat" "cookie_messagesUtk" m.whole "html" none "strong") ++
  optEv (M "cta_loader_legacy") (fun m =>
    pushEv "ctas" "cta_loader_legacy" m.whole "html" none
      (if (M "cta_load_call").isSome then "definitive" else "strong")) ++
  optEv (M "cta_load_call") (fun m =>
    pushEv "ctas" "cta_load_call" m.whole "html" none "definitive") ++
  optEv (M "cta_redirect_link") (fun m =>
    pushEv "ctas" "cta_redirect_link" m.whole "html" none "definitive") ++
  optEv (M "meetings_embed_js") (fun m =>
    pushEv "meetings" "meetings_embed_js" m.whole "html" none "strong") ++
  optEv (M "meetings_iframe") (fun m =>
    pushEv "meetings" "meetings_iframe" m.whole "html" none "strong") ++
  optEv (M "cms_meta_generator") (fun m =>
    pushEv "cms" "cms_meta_generator" m.whole "html" none "strong") ++
  (if (M "cms_internal_paths").isSome then
      optEv (M "cms_wrapper_class") (fun m =>
        pushEv "cms" "cms_wrapper_with_hcms" m.whole "html" none "strong")
    else []) ++
  optEv (M "cms_host_hs_sites") (fun m =>
    pushEv "cms" "cms_host_hs_sites" m.whole "html" none "strong") ++
  optEv (M "cms_files_hubspotusercontent") (fun m =>
    pushEv "files" "cms_files_hubspotusercontent" m.whole "html" none "moderate") ++
  optEv (M "cms_files_hubfs_path") (fun m =>
    pushEv "files" "cms_files_hubfs_path" m.whole "html" none "moderate") ++
  optEv (M "video_hubspotvideo") (fun m =>
    pushEv "video" "video_hubspotvideo" m.whole "html" none "strong") ++
  optEv (M "email_hubspot_marketing_click") (fun m =>
    pushEv "email" "email_hubspot_marketing_click" m.whole "html" none "strong") ++
  optEv (M "email_hubspotlinks") (fun m =>
    pushEv "email" "email_hubspotlinks" m.whole "html" none "moderate")

theorem mem_optEv {o : Option MatchRes} {f : MatchRes → Evidence} {e : Evidence} :
    e ∈ optEv o f ↔ ∃ m, o = some m ∧ e = f m := by
  cases o <;> simp [optEv, eq_comm]

/-- Filtering detect_html output by patternId forms_v2_loader leaves exactly
the forms_v2_loader block. -/
theorem detect_html_filter_forms_loader (M : String → Option MatchRes)
    (cookieMatches : List String) :
    (detect_html M cookieMatches).filter (fun e => e.patternId == "forms_v2_loader")
      = optEv (M "forms_v2_loader") (fun m =>
          pushEv "forms" "forms_v2_loader" m.whole "html" none
            (if (M "forms_create_call").isSome then "definitive" else "strong")) := by
  simp only [detect_html, optEv, pushEv, List.filter_append, List.filter_map,
    Function.comp_def,
    apply_ite (List.filter (fun e : Evidence => e.patternId == "forms_v2_loader"))]
  simp

/-- Filtering detect_html output by patternId forms_create_call leaves exactly
the forms_create_call block. -/
theorem detect_html_filter_forms_create (M : String → Option MatchRes)
    (cookieMatches : List String) :
    (detect_html M cookieMatches).filter (fun e => e.patternId == "forms_create_call")
      = optEv (M "forms_create_call") (fun m =>
          pushEv "forms" "forms_create_call" m.whole "html" none "definitive") := by
  simp only [detect_html, optEv, pushEv, List.filter_append, List.filter_map,
    Function.comp_def,
    apply_ite (List.filter (fun e : Evidence => e.patternId == "forms_create_call"))]
  simp

/-- C9: detect_html emits a forms_v2_loader evidence item iff the
forms_v2_loader pattern matches the body; its confidence is definitive iff
forms_create_call also matches, and strong otherwise; and whenever
forms_create_call matches, a forms_create_call item with confidence definitive
is emitted. -/
theorem detect_html_forms_spec (M : String → Option MatchRes)
    (cookieMatches : List String) :
    ((∃ e ∈ detect_html M cookieMatches, e.patternId = "forms_v2_loader") ↔
      (M "forms_v2_loader").isSome = true) ∧
    (∀ e ∈ detect_html M cookieMatches, e.patternId = "forms_v2_loader" →
      e.confidence =
        (if (M "forms_create_call").isSome then "definitive" else "strong")) ∧
    ((∃ e ∈ detect_html M cookieMatches,
        e.patternId = "forms_create_call" ∧ e.confidence = "definitive") ↔
      (M "forms_create_call").isSome = true) := by
  refine ⟨⟨?_, ?_⟩, ?_, ⟨?_, ?_⟩⟩
  · rintro ⟨e, he, hpid⟩
    have hf : e ∈ (detect_html M cookieMatches).filter
        (fun e => e.patternId == "forms_v2_loader") :=
      List.mem_filter.mpr ⟨he, by simp [hpid]⟩
    rw [detect_html_filter_forms_loader] at hf
    obtain ⟨m, hm, _⟩ := mem_optEv.mp hf
    simp [hm]
  · intro h
    obtain ⟨m, hm⟩ := Option.isSome_iff_exists.mp h
    refine ⟨pushEv "forms" "forms_v2_loader" m.whole "html" none
      (if (M "forms_create_call").isSome then "definitive" else "strong"), ?_, rfl⟩
    apply List.mem_of_mem_filter (p := fun e => e.patternId == "forms_v2_loader")
    rw [detect_html_filter_forms_loader]
    exact mem_optEv.mpr ⟨m, hm, rfl⟩
  · intro e he hpid
    have hf : e ∈ (detect_html M cookieMatches).filter
        (fun e => e.patternId == "forms_v2_loader") :=
      List.mem_filter.mpr ⟨he, by simp [hpid]⟩
    rw [detect_html_filter_forms_loader] at hf
    obtain ⟨m, _, rfl⟩ := mem_optEv.mp hf
    rfl
  · rintro ⟨e, he, hpid, _⟩
    have hf : e ∈ (detect_html M cookieMatches).filter
        (fun e => e.patternId == "forms_create_call") :=
      List.mem_filter.mpr ⟨he, by simp [hpid]⟩
    rw [detect_html_filter_forms_create] at hf
    obtain ⟨m, hm, _⟩ := mem_optEv.mp hf
    simp [hm]
  · intro h
    obtain ⟨m, hm⟩ := Option.isSome_iff_exists.mp h
    refine ⟨pushEv "forms" "forms_create_call" m.whole "html" none "definitive",
      ?_, rfl, rfl⟩
    apply List.mem_of_mem_filter (p := fun e => e.patternId == "forms_create_call")
    rw [detect_html_filter_forms_create]
    exact mem_optEv.mpr ⟨m, hm, rfl⟩

/-- Witness for detect_html_forms_spec: a body matching forms_v2_loader but not
forms_create_call yields a strong (not definitive) forms item. -/
theorem detect_html_forms_spec_witness :
    ∃ e ∈ detect_html
        (fun pid => if pid == "forms_v2_loader" then
            some { whole := "js.hsforms.net/forms/v2.js", group1 := none }
          else none) [],
      e.patternId = "forms_v2_loader" ∧ e.confidence = "strong" := by
  obtain ⟨e, he, hpid⟩ := (detect_html_forms_spec
    (fun pid => if pid == "forms_v2_loader" then
        some { whole := "js.hsforms.net/forms/v2.js", group1 := none }
      else none) []).1.mpr (by decide)
  refine ⟨e, he, hpid, ?_⟩
  have := (detect_html_forms_spec
    (fun pid => if pid == "forms_v2_loader" then
        some { whole := "js.hsforms.net/forms/v2.js", group1 := none }
      else none) []).2.1 e he hpid
  simpa using this

end HubspotCrawler
